import Mathlib

/-!
Verification of the Brocklayers G-code post-processor (src/brocklayers.py)
against its natural-language specification.

The embedding models the two components of the program:

* `calculate_layer_settings` — the layer-parity settings policy;
* `processLine` / `runLines` / `process_gcode` — the single-pass scanner
  `process_gcode`, modelled as a pure step function threaded over the input
  line list.  A line is a `List Char`; a run that raises a Python exception
  (`ValueError` from `float(...)` on a regex-matched but unparsable token,
  or `ZeroDivisionError`) is modelled as `Option.none`.

Python floats are modelled exactly: a value is an unnormalized fraction
(`Q`), and every arithmetic result is rounded to 53 significant bits with
round-to-nearest, ties-to-even (`roundDouble`), which is IEEE-754 binary64
semantics.  Model scope: exponent range is unbounded (no overflow to
infinity, no subnormal flushing) and the zero is unsigned; all values that
appear in the claims are far inside the range where these coincide with
binary64.  Decimal formatting (`formatFixed`) rounds the exact binary value
with ties-to-even, as CPython string formatting does.
-/

set_option maxRecDepth 1000000

/-! ## Exact fraction arithmetic and the binary64 rounding model -/

/-- An unnormalized fraction: `num / den` with `den > 0` in every value the
development constructs.  Unnormalized so that every operation reduces in the
kernel (no gcd). -/
structure Q where
  num : ℤ
  den : ℕ
deriving DecidableEq, Repr

def qZero : Q := ⟨0, 1⟩

def qAdd (a b : Q) : Q := ⟨a.num * b.den + b.num * a.den, a.den * b.den⟩

def qMul (a b : Q) : Q := ⟨a.num * b.num, a.den * b.den⟩

def qDiv (a b : Q) : Q :=
  if b.num = 0 then qZero
  else if b.num < 0 then ⟨-(a.num * b.den), a.den * b.num.natAbs⟩
  else ⟨a.num * b.den, a.den * b.num.natAbs⟩

def qBlt (a b : Q) : Bool := a.num * b.den < b.num * a.den

def qFloor (a : Q) : ℤ :=
  if a.num < 0 then -(Int.ofNat ((a.num.natAbs + a.den - 1) / a.den))
  else Int.ofNat (a.num.natAbs / a.den)

/-- Round an exact fraction to the nearest integer, ties to even. -/
def roundHalfEven (a : Q) : ℤ :=
  let f := qFloor a
  let r : Q := ⟨a.num - f * a.den, a.den⟩
  let rh : Q := ⟨1, 2⟩
  if qBlt r rh then f
  else if qBlt rh r then f + 1
  else if f % 2 = 0 then f else f + 1

def nbitsAux : ℕ → ℕ → ℕ
  | 0, _ => 0
  | fuel + 1, n => if n = 0 then 0 else nbitsAux fuel (n / 2) + 1

/-- Number of binary digits of `n` (0 for 0). -/
def nbits (n : ℕ) : ℕ := nbitsAux (n + 1) n

def qpow2 (k : ℤ) : Q :=
  if 0 ≤ k then ⟨Int.ofNat (2 ^ k.toNat), 1⟩ else ⟨1, 2 ^ (-k).toNat⟩

/-- For positive `a`, the exponent `e` with `2 ^ e ≤ a < 2 ^ (e + 1)`. -/
def qlog2 (a : Q) : ℤ :=
  let g : ℤ := (nbits a.num.natAbs : ℤ) - (nbits a.den : ℤ)
  if qBlt a (qpow2 g) then g - 1 else g

def tzAux : ℕ → ℕ → ℕ
  | 0, _ => 0
  | fuel + 1, n => if n % 2 = 0 && n ≠ 0 then tzAux fuel (n / 2) + 1 else 0

/-- Round a positive fraction to 53 significant bits, nearest, ties to even;
the result is returned in a canonical representation (odd numerator scaled
by a power of two). -/
def roundPos (a : Q) : Q :=
  let e := qlog2 a
  let m := (roundHalfEven (qMul a (qpow2 (52 - e)))).toNat
  let tz := tzAux 60 m
  let o := m / 2 ^ tz
  let t : ℤ := e - 52 + tz
  if 0 ≤ t then ⟨Int.ofNat (o * 2 ^ t.toNat), 1⟩ else ⟨Int.ofNat o, 2 ^ (-t).toNat⟩

/-- Binary64 rounding of an exact fraction (unbounded exponent model). -/
def roundDouble (a : Q) : Q :=
  if a.num = 0 then qZero
  else if a.num < 0 then
    let r := roundPos ⟨-a.num, a.den⟩
    ⟨-r.num, r.den⟩
  else roundPos a

/-- The binary64 value of the decimal literal `n / d`. -/
def dbl (n : ℤ) (d : ℕ) : Q := roundDouble ⟨n, d⟩

/-- Binary64 addition. -/
def fadd (a b : Q) : Q := roundDouble (qAdd a b)

/-- Binary64 multiplication. -/
def fmul (a b : Q) : Q := roundDouble (qMul a b)

/-- Binary64 division. -/
def fdivD (a b : Q) : Q := roundDouble (qDiv a b)

/-- Python `int()` on a float: truncation toward zero. -/
def pyInt (a : Q) : ℤ :=
  if a.num < 0 then -(Int.ofNat (a.num.natAbs / a.den)) else Int.ofNat (a.num.natAbs / a.den)

/-! ## Decimal rendering (`%.3f` / `%.5f`) and decimal digits -/

def natDecAux : ℕ → ℕ → List Char
  | 0, _ => []
  | fuel + 1, n =>
    if n < 10 then [Char.ofNat (48 + n)]
    else natDecAux fuel (n / 10) ++ [Char.ofNat (48 + n % 10)]

/-- Decimal digits of a natural number. -/
def natDec (n : ℕ) : List Char := natDecAux (n + 1) n

/-- Python fixed-point formatting `f"{q:.p}f"`: the exact value is rounded
to `p` decimal places with ties to even and rendered with exactly `p`
fractional digits. -/
def formatFixed (p : ℕ) (q : Q) : List Char :=
  let neg := q.num < 0
  let a : Q := ⟨Int.ofNat q.num.natAbs, q.den⟩
  let m := (roundHalfEven (qMul a ⟨Int.ofNat (10 ^ p), 1⟩)).toNat
  let ipart := natDec (m / 10 ^ p)
  let fdigits := natDec (m % 10 ^ p)
  let fpart := List.replicate (p - fdigits.length) (Char.ofNat 48) ++ fdigits
  (if neg then [Char.ofNat 45] else []) ++ ipart ++ [Char.ofNat 46] ++ fpart

/-! ## String scanning: the regex and string operations the source uses -/

/-- The character class of `[-\d.]` in the source's regexes. -/
def tokChar (c : Char) : Bool := c.isDigit || c == '-' || c == '.'

def headTok : List Char → Bool
  | [] => false
  | c :: _ => tokChar c

/-- `re.search(anchor ++ "([-\d.]+)", s)`: the token after the first
occurrence of `anchor` that is followed by at least one `tokChar`. -/
def searchTok (a : Char) : List Char → Option (List Char)
  | [] => Option.none
  | c :: t =>
    if c == a && headTok t then Option.some (t.takeWhile tokChar)
    else searchTok a t

def subAllAux (a : Char) (repl : List Char) : ℕ → List Char → List Char
  | 0, s => s
  | _ + 1, [] => []
  | fuel + 1, c :: t =>
    if c == a && headTok t then repl ++ subAllAux a repl fuel (t.dropWhile tokChar)
    else c :: subAllAux a repl fuel t

/-- `re.sub(anchor ++ "[-\d.]+", repl, s)`: every occurrence of the anchor
character followed by a maximal nonempty token run is replaced by `repl`. -/
def subAll (a : Char) (repl : List Char) (s : List Char) : List Char :=
  subAllAux a repl s.length s

def isSpaceChar (c : Char) : Bool :=
  c == ' ' || c == '\t' || c == '\n' || c == '\r' || c == Char.ofNat 11 || c == Char.ofNat 12

/-- Python `str.strip()` (ASCII whitespace). -/
def pyStrip (s : List Char) : List Char :=
  ((s.dropWhile isSpaceChar).reverse.dropWhile isSpaceChar).reverse

def decDigitsVal (s : List Char) : ℕ := s.foldl (fun acc c => acc * 10 + (c.toNat - 48)) 0

/-- Parse an unsigned decimal body `digits [ . digits ]` (at least one digit
in total, no second dot, no embedded minus), as Python `float()` accepts on
a string drawn from the `[-\d.]` character class. -/
def parseBody (s : List Char) : Option Q :=
  let ip := s.takeWhile Char.isDigit
  let rest := s.dropWhile Char.isDigit
  match rest with
  | [] => if ip.isEmpty then Option.none else Option.some ⟨Int.ofNat (decDigitsVal ip), 1⟩
  | c :: frac =>
    if c == '.' && frac.all Char.isDigit && (!ip.isEmpty || !frac.isEmpty) then
      Option.some ⟨Int.ofNat (decDigitsVal ip * 10 ^ frac.length + decDigitsVal frac), 10 ^ frac.length⟩
    else Option.none

/-- Python `float()` on a `[-\d.]+` token: optional leading minus, then a
valid decimal body; `Option.none` models `ValueError`. -/
def parseTok (s : List Char) : Option Q :=
  match s with
  | [] => Option.none
  | c :: t =>
    if c == '-' then (parseBody t).map (fun q => ⟨-q.num, q.den⟩) else parseBody s

/-- Python `float()` of a matched token, as a binary64 value. -/
def pyFloat (s : List Char) : Option Q := (parseTok s).map roundDouble

/-! ## The program: settings policy and the line scanner -/

def MIN_LAYER_HEIGHT : Q := dbl 15 100

def MAX_LAYER_HEIGHT : Q := dbl 3 10

def MIN_LINE_WIDTH : Q := dbl 4 10

def MAX_LINE_WIDTH : Q := dbl 5 10

structure LayerSettings where
  layer_height : Q
  line_width : Q
deriving DecidableEq, Repr

/-- `calculate_layer_settings` from the source: parity of the layer number
selects one of the two presets; the total-layers argument is unused. -/
def calculate_layer_settings (layer_number : ℤ) (_total_layers : ℕ) : LayerSettings :=
  if layer_number % 2 = 0 then ⟨MAX_LAYER_HEIGHT, MIN_LINE_WIDTH⟩
  else ⟨MIN_LAYER_HEIGHT, MAX_LINE_WIDTH⟩

inductive PerimeterType
  | external
  | internal
  | unset
deriving DecidableEq, Repr

/-- The scan state threaded through `process_gcode`'s loop. -/
structure ScanState where
  current_layer : ℤ
  current_z : Q
  perimeter_type : PerimeterType
  perimeter_block_count : ℕ
  inside_perimeter_block : Bool
deriving DecidableEq, Repr

def initState : ScanState := ⟨0, qZero, PerimeterType.unset, 0, false⟩

/-- The Python literal `0.5` in `z_shift = layer_height * 0.5`. -/
def qHalf : Q := dbl 5 10

/-- The Python literal `0.4` in the E rescale (assumed slicer default width). -/
def assumedDefaultWidth : Q := dbl 4 10

/-- `line.startswith("G1 Z")`. -/
def isLayerChange (cs : List Char) : Bool := List.isPrefixOf "G1 Z".data cs

def hasSubstr (pat : List Char) : List Char → Bool
  | [] => pat.isEmpty
  | c :: t => pat.isPrefixOf (c :: t) || hasSubstr pat t

/-- The `;TYPE:` comment cascade of the source (lines 83-93). -/
def markerUpdate (cs : List Char) (st : ScanState) : ScanState :=
  if hasSubstr ";TYPE:External perimeter".data cs || hasSubstr ";TYPE:Outer wall".data cs then
    { st with perimeter_type := PerimeterType.external, inside_perimeter_block := false }
  else if hasSubstr ";TYPE:Perimeter".data cs || hasSubstr ";TYPE:Inner wall".data cs then
    { st with perimeter_type := PerimeterType.internal, inside_perimeter_block := false }
  else if hasSubstr ";TYPE:".data cs then
    { st with perimeter_type := PerimeterType.unset, inside_perimeter_block := false }
  else st

/-- `line.startswith("G1") and "X" in line and "Y" in line and "E" in line`. -/
def motionMatch (cs : List Char) : Bool :=
  List.isPrefixOf "G1".data cs && cs.contains 'X' && cs.contains 'Y' && cs.contains 'E'

/-- The synthetic Z line inserted before an odd-numbered block. -/
def shiftedZLine (z : Q) (bc : ℕ) : List Char :=
  "G1 Z".data ++ formatFixed 3 z ++ " ; Shifted Z for block #".data ++ natDec bc ++ [Char.ofNat 10]

/-- The synthetic Z line inserted before an even-numbered block. -/
def resetZLine (z : Q) (bc : ℕ) : List Char :=
  "G1 Z".data ++ formatFixed 3 z ++ " ; Reset Z for block #".data ++ natDec bc ++ [Char.ofNat 10]

/-- The trailing comment appended to a rescaled extrusion line. -/
def adjustedComment (bc : ℕ) : List Char :=
  " ; Adjusted E for layer settings, block #".data ++ natDec bc ++ [Char.ofNat 10]

/-- The state after opening block number `perimeter_block_count + 1`
(source lines 99-100 and 126). -/
def openedState (st1 : ScanState) : ScanState :=
  { st1 with perimeter_block_count := st1.perimeter_block_count + 1,
             inside_perimeter_block := false }

/-- The synthetic Z line inserted when a block opens (source lines 108-114):
odd block number shifts by `z_shift * settings.layer_height`, even block
number re-emits the unmodified `current_z`. -/
def insertedZ (layer_height : Q) (total_layers : ℕ) (st1 : ScanState) : List Char :=
  if (st1.perimeter_block_count + 1) % 2 = 1 then
    shiftedZLine
      (fadd st1.current_z
        (fmul (fmul layer_height qHalf)
          (calculate_layer_settings st1.current_layer total_layers).layer_height))
      (st1.perimeter_block_count + 1)
  else resetZLine st1.current_z (st1.perimeter_block_count + 1)

/-- The motion line after the E rescale of source lines 117-123: every E
token replaced by `old_e * (line_width / 0.4)` at 5 decimals, the line
stripped, and the explanatory comment appended. -/
def rewrittenE (total_layers : ℕ) (st1 : ScanState) (e : Q) (line : List Char) : List Char :=
  pyStrip (subAll 'E'
      ('E' :: formatFixed 5
        (fmul e
          (fdivD (calculate_layer_settings st1.current_layer total_layers).line_width
            assumedDefaultWidth)))
      line) ++
    adjustedComment (st1.perimeter_block_count + 1)

/-- One iteration of the `for line in lines` loop of `process_gcode`
(source lines 69-128): the new state and the output lines this input line
contributes.  `Option.none` models an uncaught Python exception
(`ValueError` from `float` on a matched token, `ZeroDivisionError` when the
nominal layer height is zero). -/
def processLine (layer_height : Q) (total_layers : ℕ) (st : ScanState) (line : List Char) :
    Option (ScanState × List (List Char)) :=
  if isLayerChange line then
    match searchTok 'Z' line with
    | Option.none => Option.some (st, [line])
    | Option.some tok =>
      match pyFloat tok with
      | Option.none => Option.none
      | Option.some z =>
        if layer_height.num = 0 then Option.none
        else
          Option.some ({ st with current_z := z,
                                 current_layer := pyInt (fdivD z layer_height),
                                 perimeter_block_count := 0 }, [line])
  else
    if (markerUpdate line st).perimeter_type = PerimeterType.internal ∧ motionMatch line = true then
      if (markerUpdate line st).inside_perimeter_block then
        Option.some ({ markerUpdate line st with inside_perimeter_block := false }, [line])
      else
        match searchTok 'E' line with
        | Option.none =>
          Option.some (openedState (markerUpdate line st),
            [insertedZ layer_height total_layers (markerUpdate line st), line])
        | Option.some etok =>
          match pyFloat etok with
          | Option.none => Option.none
          | Option.some e =>
            Option.some (openedState (markerUpdate line st),
              [insertedZ layer_height total_layers (markerUpdate line st),
               rewrittenE total_layers (markerUpdate line st) e line])
    else Option.some (markerUpdate line st, [line])

/-- Folding `processLine` over the input lines, accumulating the output. -/
def runLines (layer_height : Q) (total_layers : ℕ) :
    ScanState → List (List Char) → Option (ScanState × List (List Char))
  | st, [] => Option.some (st, [])
  | st, l :: rest =>
    match processLine layer_height total_layers st l with
    | Option.none => Option.none
    | Option.some (st1, out) =>
      match runLines layer_height total_layers st1 rest with
      | Option.none => Option.none
      | Option.some (st2, outs) => Option.some (st2, out ++ outs)

/-- `total_layers = sum(1 for line in lines if line.startswith("G1 Z"))`. -/
def countLayerLines (lines : List (List Char)) : ℕ :=
  (lines.filter (fun l => isLayerChange l)).length

/-- `process_gcode` without the file I/O shell: the rewritten line list, or
`Option.none` when the run dies with an exception. -/
def process_gcode (layer_height : Q) (lines : List (List Char)) : Option (List (List Char)) :=
  (runLines layer_height (countLayerLines lines) initState lines).map (fun r => r.2)

/-- The CLI default nominal layer height `0.2`. -/
def lh02 : Q := dbl 2 10

/-! ## Helper lemmas about the scanner -/

lemma isPrefixOf_append_left (p q : List Char) :
    ∀ s : List Char, List.isPrefixOf (p ++ q) s = true → List.isPrefixOf p s = true := by
  induction p with
  | nil => intro s _; simp [List.isPrefixOf]
  | cons a p ih =>
    intro s h
    cases s with
    | nil => simp [List.isPrefixOf] at h
    | cons b t =>
      simp only [List.cons_append, List.isPrefixOf, Bool.and_eq_true] at h ⊢
      exact ⟨h.1, ih t h.2⟩

lemma hasSubstr_append_left (p q : List Char) :
    ∀ s : List Char, hasSubstr (p ++ q) s = true → hasSubstr p s = true := by
  intro s
  induction s with
  | nil =>
    simp only [hasSubstr, List.isEmpty_iff, List.append_eq_nil]
    intro h
    simp [h.1]
  | cons c t ih =>
    simp only [hasSubstr, Bool.or_eq_true]
    rintro (h | h)
    · exact Or.inl (isPrefixOf_append_left p q (c :: t) h)
    · exact Or.inr (ih h)

lemma hasSubstr_ext_of_sub (r s : List Char)
    (h : hasSubstr ( ";TYPE:".data) s = false) :
    hasSubstr ( ";TYPE:".data ++ r) s = false := by
  cases hc : hasSubstr ( ";TYPE:".data ++ r) s with
  | false => rfl
  | true => exact absurd (hasSubstr_append_left _ r s hc) (by simp [h])

/-- A line with no `;TYPE:` substring leaves the marker cascade inert. -/
lemma markerUpdate_no_marker (cs : List Char) (st : ScanState)
    (h : hasSubstr ( ";TYPE:".data) cs = false) : markerUpdate cs st = st := by
  have h1 := hasSubstr_ext_of_sub ( "External perimeter".data) cs h
  have h2 := hasSubstr_ext_of_sub ( "Outer wall".data) cs h
  have h3 := hasSubstr_ext_of_sub ( "Perimeter".data) cs h
  have h4 := hasSubstr_ext_of_sub ( "Inner wall".data) cs h
  have e1 : ( ";TYPE:".data ++ "External perimeter".data) = ( ";TYPE:External perimeter".data) := by decide
  have e2 : ( ";TYPE:".data ++ "Outer wall".data) = ( ";TYPE:Outer wall".data) := by decide
  have e3 : ( ";TYPE:".data ++ "Perimeter".data) = ( ";TYPE:Perimeter".data) := by decide
  have e4 : ( ";TYPE:".data ++ "Inner wall".data) = ( ";TYPE:Inner wall".data) := by decide
  rw [e1] at h1; rw [e2] at h2; rw [e3] at h3; rw [e4] at h4
  unfold markerUpdate
  simp [h1, h2, h3, h4, h]

/-- The marker cascade never touches the layer index, the Z value or the
block counter. -/
lemma markerUpdate_frame (cs : List Char) (st : ScanState) :
    (markerUpdate cs st).perimeter_block_count = st.perimeter_block_count ∧
    (markerUpdate cs st).current_z = st.current_z ∧
    (markerUpdate cs st).current_layer = st.current_layer := by
  unfold markerUpdate
  split
  · exact ⟨rfl, rfl, rfl⟩
  · split
    · exact ⟨rfl, rfl, rfl⟩
    · split
      · exact ⟨rfl, rfl, rfl⟩
      · exact ⟨rfl, rfl, rfl⟩

lemma g1_of_layerChange (cs : List Char) (h : isLayerChange cs = true) :
    List.isPrefixOf ( "G1".data) cs = true := by
  have e : ( "G1".data ++ " Z".data) = ( "G1 Z".data) := by decide
  exact isPrefixOf_append_left ( "G1".data) ( " Z".data) cs (by rw [e]; exact h)

/-- On a layer-change line the branch of source lines 71-80 runs. -/
lemma processLine_layer_split (lh : Q) (tl : ℕ) (st : ScanState) (line : List Char)
    (h : isLayerChange line = true) :
    processLine lh tl st line =
      match searchTok 'Z' line with
      | Option.none => Option.some (st, [line])
      | Option.some tok =>
        match pyFloat tok with
        | Option.none => Option.none
        | Option.some z =>
          if lh.num = 0 then Option.none
          else Option.some ({ st with current_z := z,
                                      current_layer := pyInt (fdivD z lh),
                                      perimeter_block_count := 0 }, [line]) := by
  unfold processLine
  rw [if_pos h]

/-- A layer-change line whose Z token fails to match is passed through with
no state change (source line 73: `if z_match` guards everything). -/
lemma processLine_layer_noparse (lh : Q) (tl : ℕ) (st : ScanState) (line : List Char)
    (h : isLayerChange line = true) (hz : searchTok 'Z' line = Option.none) :
    processLine lh tl st line = Option.some (st, [line]) := by
  rw [processLine_layer_split lh tl st line h, hz]

/-- A layer-change line whose Z token matches and parses updates exactly
`current_z`, `current_layer` and `perimeter_block_count` (source 74-77). -/
lemma processLine_layer_parse (lh : Q) (tl : ℕ) (st : ScanState) (line : List Char)
    (tok : List Char) (z : Q)
    (h : isLayerChange line = true) (hz : searchTok 'Z' line = Option.some tok)
    (hp : pyFloat tok = Option.some z) (hlh : lh.num ≠ 0) :
    processLine lh tl st line =
      Option.some ({ st with current_z := z,
                             current_layer := pyInt (fdivD z lh),
                             perimeter_block_count := 0 }, [line]) := by
  rw [processLine_layer_split lh tl st line h, hz]
  simp only [hp, if_neg hlh]

/-- On a non-layer-change, non-marker motion line scanned outside a block in
internal-perimeter context, the block-opening branch of source lines 96-123
runs. -/
lemma processLine_open (lh : Q) (tl : ℕ) (st : ScanState) (line : List Char)
    (hpt : st.perimeter_type = PerimeterType.internal)
    (hib : st.inside_perimeter_block = false)
    (hlc : isLayerChange line = false)
    (hmk : hasSubstr ( ";TYPE:".data) line = false)
    (hmm : motionMatch line = true) :
    processLine lh tl st line =
      match searchTok 'E' line with
      | Option.none => Option.some (openedState st, [insertedZ lh tl st, line])
      | Option.some etok =>
        match pyFloat etok with
        | Option.none => Option.none
        | Option.some e =>
          Option.some (openedState st, [insertedZ lh tl st, rewrittenE tl st e line]) := by
  unfold processLine
  rw [if_neg (by simp [hlc])]
  simp only [markerUpdate_no_marker line st hmk]
  rw [if_pos ⟨hpt, hmm⟩, if_neg (by simp [hib])]


/-- The scan dies only on `float()` of a regex-matched token that is not a
valid number: every `Option.none` of `processLine` (with a nonzero nominal
layer height) exhibits such a token. -/
lemma processLine_none_char (lh : Q) (tl : ℕ) (st : ScanState) (line : List Char)
    (hlh : lh.num ≠ 0) (h : processLine lh tl st line = Option.none) :
    ∃ tok, (searchTok 'Z' line = Option.some tok ∨ searchTok 'E' line = Option.some tok) ∧
      pyFloat tok = Option.none := by
  by_cases hlc : isLayerChange line = true
  · rw [processLine_layer_split lh tl st line hlc] at h
    split at h
    · exact absurd h (by simp)
    · split at h
      · next tok heqZ _ hp => exact ⟨tok, Or.inl heqZ, hp⟩
      · split at h
        · next hz => exact absurd hz hlh
        · exact absurd h (by simp)
  · unfold processLine at h
    rw [if_neg hlc] at h
    split at h
    · split at h
      · exact absurd h (by simp)
      · split at h
        · exact absurd h (by simp)
        · split at h
          · next etok heqE _ hp => exact ⟨etok, Or.inr heqE, hp⟩
          · exact absurd h (by simp)
    · exact absurd h (by simp)

/-- Away from layer-change lines the block counter never decreases. -/
lemma processLine_mono (lh : Q) (tl : ℕ) (st : ScanState) (line : List Char)
    (st2 : ScanState) (out : List (List Char))
    (hlc : isLayerChange line = false)
    (h : processLine lh tl st line = Option.some (st2, out)) :
    st.perimeter_block_count ≤ st2.perimeter_block_count := by
  have hmk := (markerUpdate_frame line st).1
  unfold processLine at h
  rw [if_neg (by simp [hlc])] at h
  split at h
  · split at h
    · simp only [Option.some.injEq, Prod.mk.injEq] at h
      obtain ⟨h1, -⟩ := h
      rw [← h1]
      simp only []
      omega
    · split at h
      · simp only [Option.some.injEq, Prod.mk.injEq, openedState] at h
        obtain ⟨h1, -⟩ := h
        rw [← h1]
        simp only []
        omega
      · split at h
        · exact absurd h (by simp)
        · simp only [Option.some.injEq, Prod.mk.injEq, openedState] at h
          obtain ⟨h1, -⟩ := h
          rw [← h1]
          simp only []
          omega
  · simp only [Option.some.injEq, Prod.mk.injEq] at h
    obtain ⟨h1, -⟩ := h
    rw [← h1]
    omega

/-- Outside internal-perimeter context, a line that is neither a layer
change nor a `;TYPE:` marker is passed through with no state change. -/
lemma processLine_inert (lh : Q) (tl : ℕ) (st : ScanState) (line : List Char)
    (hpt : st.perimeter_type ≠ PerimeterType.internal)
    (hlc : isLayerChange line = false)
    (hmk : hasSubstr ( ";TYPE:".data) line = false) :
    processLine lh tl st line = Option.some (st, [line]) := by
  unfold processLine
  rw [if_neg (by simp [hlc])]
  simp only [markerUpdate_no_marker line st hmk]
  rw [if_neg (by intro hc; exact hpt hc.1)]

/-- Folding `processLine` over lines that are neither layer changes nor
markers, starting outside internal-perimeter context, changes nothing. -/
lemma runLines_inert (lh : Q) (tl : ℕ) (st : ScanState)
    (hpt : st.perimeter_type ≠ PerimeterType.internal) :
    ∀ lines : List (List Char),
      (∀ l ∈ lines, isLayerChange l = false ∧ hasSubstr ( ";TYPE:".data) l = false) →
      runLines lh tl st lines = Option.some (st, lines) := by
  intro lines
  induction lines with
  | nil => intro _; rfl
  | cons l rest ih =>
    intro hall
    have hl := hall l (by simp)
    have hrest : ∀ x ∈ rest, isLayerChange x = false ∧ hasSubstr ( ";TYPE:".data) x = false :=
      fun x hx => hall x (List.mem_cons_of_mem l hx)
    unfold runLines
    simp only [processLine_inert lh tl st l hpt hl.1 hl.2, ih hrest]
    rfl

lemma countLayerLines_zero (lines : List (List Char))
    (h : ∀ l ∈ lines, isLayerChange l = false) : countLayerLines lines = 0 := by
  unfold countLayerLines
  rw [List.filter_eq_nil_iff.mpr (by intro l hl; simp [h l hl])]
  rfl

/-- A marker line that is not a `G1` command only runs the marker cascade
and is appended unmodified. -/
lemma processLine_marker_only (lh : Q) (tl : ℕ) (st : ScanState) (line : List Char)
    (hg1 : List.isPrefixOf ( "G1".data) line = false) :
    processLine lh tl st line = Option.some (markerUpdate line st, [line]) := by
  have hlc : isLayerChange line = false := by
    cases hc : isLayerChange line with
    | false => rfl
    | true => exact absurd (g1_of_layerChange line hc) (by simp [hg1])
  have hmm : motionMatch line = false := by
    unfold motionMatch
    simp [hg1]
  unfold processLine
  rw [if_neg (by simp [hlc])]
  rw [if_neg (by intro hc; exact absurd hc.2 (by simp [hmm]))]

/-! ## The claims -/

/-- C7: `calculate_layer_settings` is a pure total function of the parity of
its layer-index argument; the total-layers argument has no effect; every
even layer index yields layer height 0.30 and line width 0.40, every odd
layer index yields layer height 0.15 and line width 0.50. -/
theorem c7_settings_parity (n : ℤ) (t u : ℕ) :
    calculate_layer_settings n t = calculate_layer_settings n u ∧
    calculate_layer_settings n t =
      (if n % 2 = 0 then LayerSettings.mk (dbl 3 10) (dbl 4 10)
       else LayerSettings.mk (dbl 15 100) (dbl 5 10)) :=
  ⟨rfl, rfl⟩

/-- C4 counterexample: processing the layer-change line "G1 Z2.400" with
nominal layer height 0.2 sets `current_layer` to 11, not 12 as claimed: in
binary64, 2.4 / 0.2 is just below 12 and Python `int()` truncates. -/
theorem c4_counterexample :
    processLine lh02 0 initState ( "G1 Z2.400\n".data) =
      Option.some ({ current_layer := 11, current_z := dbl 24 10,
                     perimeter_type := PerimeterType.unset,
                     perimeter_block_count := 0, inside_perimeter_block := false },
        [ "G1 Z2.400\n".data]) ∧ (11 : ℤ) ≠ 12 := by
  constructor
  · decide
  · decide

/-- C4 (amended): a layer-change line with a matching, parseable Z token
sets `current_z` to the parsed binary64 value, sets `current_layer` to the
Python-`int` truncation of the binary64 quotient `current_z /
nominal_layer_height` (which is 11, not 12, for "G1 Z2.400" at 0.2), resets
the block counter to 0, and appends the original line unmodified. -/
theorem c4_layer_change (lh : Q) (tl : ℕ) (st : ScanState) (line tok : List Char) (z : Q)
    (h : isLayerChange line = true) (hz : searchTok 'Z' line = Option.some tok)
    (hp : pyFloat tok = Option.some z) (hlh : lh.num ≠ 0) :
    processLine lh tl st line =
      Option.some ({ st with current_z := z,
                             current_layer := pyInt (fdivD z lh),
                             perimeter_block_count := 0 }, [line]) :=
  processLine_layer_parse lh tl st line tok z h hz hp hlh

/-- C4 witness: "G1 Z0.600" at nominal 0.2 parses, and the layer index is
the truncated binary64 quotient (here 2, since 0.6 / 0.2 is just below 3). -/
theorem c4_witness :
    processLine lh02 0 initState ( "G1 Z0.600\n".data) =
      Option.some ({ initState with current_z := dbl 6 10,
                                    current_layer := pyInt (fdivD (dbl 6 10) lh02),
                                    perimeter_block_count := 0 }, [ "G1 Z0.600\n".data]) :=
  c4_layer_change lh02 0 initState ( "G1 Z0.600\n".data) ( "0.600".data) (dbl 6 10)
    (by decide) (by decide) (by decide) (by decide)

/-- C3 counterexample: the rewriter does NOT run to completion on every
input: on the line "G1 Z..", the Z regex matches the token "..", Python
`float("..")` raises `ValueError`, and the run aborts. -/
theorem c3_counterexample : process_gcode lh02 [ "G1 Z..\n".data] = Option.none := by
  decide

/-- C3 (amended): the rewriter aborts only when a regex-matched numeric
token fails to parse as a float; a line that fails the required pattern
match of its classification step (here: a layer-change line with no
matching Z token) is passed through unchanged with no state change, and
processing continues. -/
theorem c3_failure_semantics :
    (∀ (lh : Q) (tl : ℕ) (st : ScanState) (line : List Char), lh.num ≠ 0 →
        processLine lh tl st line = Option.none →
        ∃ tok, (searchTok 'Z' line = Option.some tok ∨ searchTok 'E' line = Option.some tok) ∧
          pyFloat tok = Option.none) ∧
    (∀ (lh : Q) (tl : ℕ) (st : ScanState) (line : List Char),
        isLayerChange line = true → searchTok 'Z' line = Option.none →
        processLine lh tl st line = Option.some (st, [line])) :=
  ⟨fun lh tl st line hlh h => processLine_none_char lh tl st line hlh h,
   fun lh tl st line h hz => processLine_layer_noparse lh tl st line h hz⟩

/-- C3 witness: the abort on "G1 Z.." comes from a matched token that fails
to parse, and "G1 Zx" (no matching token at all) is passed through. -/
theorem c3_witness :
    (∃ tok, (searchTok 'Z' ( "G1 Z..\n".data) = Option.some tok ∨
             searchTok 'E' ( "G1 Z..\n".data) = Option.some tok) ∧
       pyFloat tok = Option.none) ∧
    processLine lh02 0 initState ( "G1 Zx\n".data) =
      Option.some (initState, [ "G1 Zx\n".data]) :=
  ⟨c3_failure_semantics.1 lh02 0 initState ( "G1 Z..\n".data) (by decide) (by decide),
   c3_failure_semantics.2 lh02 0 initState ( "G1 Zx\n".data) (by decide) (by decide)⟩

/-- C8 counterexample: a layer-change line does NOT always reset the block
counter: after one block has opened (counter 1), the layer-change-prefixed
line "G1 Zx" has no matching Z token, so the counter stays 1.  (The third
line is layer-change-prefixed, and 1 is the total-layers count of this
input.) -/
theorem c8_counterexample :
    (runLines lh02 1 initState
        [ ";TYPE:Inner wall\n".data, "G1 X1 Y1 E1\n".data, "G1 Zx\n".data]).map
      (fun r => r.1.perimeter_block_count) = Option.some 1 ∧
    isLayerChange ( "G1 Zx\n".data) = true := by
  constructor
  · decide
  · decide

/-- C8 (amended): the block counter is monotonically non-decreasing away
from layer-change lines; a layer-change line with a matching, parseable Z
token resets it to 0; a layer-change line with no matching Z token leaves
the whole state unchanged. -/
theorem c8_block_counter :
    (∀ (lh : Q) (tl : ℕ) (st : ScanState) (line : List Char) (st2 : ScanState)
        (out : List (List Char)),
       isLayerChange line = false → processLine lh tl st line = Option.some (st2, out) →
       st.perimeter_block_count ≤ st2.perimeter_block_count) ∧
    (∀ (lh : Q) (tl : ℕ) (st : ScanState) (line tok : List Char) (z : Q),
       isLayerChange line = true → searchTok 'Z' line = Option.some tok →
       pyFloat tok = Option.some z → lh.num ≠ 0 →
       ∃ st2 out, processLine lh tl st line = Option.some (st2, out) ∧
         st2.perimeter_block_count = 0) ∧
    (∀ (lh : Q) (tl : ℕ) (st : ScanState) (line : List Char),
       isLayerChange line = true → searchTok 'Z' line = Option.none →
       processLine lh tl st line = Option.some (st, [line])) :=
  ⟨fun lh tl st line st2 out hlc h => processLine_mono lh tl st line st2 out hlc h,
   fun lh tl st line tok z h hz hp hlh =>
     ⟨_, _, processLine_layer_parse lh tl st line tok z h hz hp hlh, rfl⟩,
   fun lh tl st line h hz => processLine_layer_noparse lh tl st line h hz⟩

/-- C8 witness: a motion line does not decrease the counter, "G1 Z0.600"
resets it, and "G1 Zx" leaves the state alone, at concrete inputs. -/
theorem c8_witness :
    ({ current_layer := 0, current_z := qZero, perimeter_type := PerimeterType.internal,
       perimeter_block_count := 3, inside_perimeter_block := false } : ScanState).perimeter_block_count ≤
      ({ current_layer := 0, current_z := qZero, perimeter_type := PerimeterType.internal,
         perimeter_block_count := 4, inside_perimeter_block := false } : ScanState).perimeter_block_count ∧
    (∃ st2 out, processLine lh02 0
        { current_layer := 0, current_z := qZero, perimeter_type := PerimeterType.internal,
          perimeter_block_count := 3, inside_perimeter_block := false }
        ( "G1 Z0.600\n".data) = Option.some (st2, out) ∧ st2.perimeter_block_count = 0) ∧
    processLine lh02 0 initState ( "G1 Zx\n".data) = Option.some (initState, [ "G1 Zx\n".data]) :=
  ⟨c8_block_counter.1 lh02 0
      { current_layer := 0, current_z := qZero, perimeter_type := PerimeterType.internal,
        perimeter_block_count := 3, inside_perimeter_block := false }
      ( "G1 X1 Y1 E1\n".data)
      { current_layer := 0, current_z := qZero, perimeter_type := PerimeterType.internal,
        perimeter_block_count := 4, inside_perimeter_block := false }
      [ "G1 Z0.000 ; Reset Z for block #4\n".data, "G1 X1 Y1 E1.00000 ; Adjusted E for layer settings, block #4\n".data]
      (by decide) (by decide),
   c8_block_counter.2.1 lh02 0
      { current_layer := 0, current_z := qZero, perimeter_type := PerimeterType.internal,
        perimeter_block_count := 3, inside_perimeter_block := false }
      ( "G1 Z0.600\n".data) ( "0.600".data) (dbl 6 10) (by decide) (by decide) (by decide) (by decide),
   c8_block_counter.2.2 lh02 0 initState ( "G1 Zx\n".data) (by decide) (by decide)⟩

/-- C1 counterexample: a line starting with "G1" that contains X, Y and E is
NOT always treated as a motion line in internal-perimeter context: "G1
Z2.000 X1 Y1 E1" starts with "G1 Z", so it is handled as a layer change —
the block counter is reset to 0 (not incremented to 6) and no synthetic Z
line is inserted. -/
theorem c1_counterexample :
    processLine lh02 0
        { current_layer := 0, current_z := qZero, perimeter_type := PerimeterType.internal,
          perimeter_block_count := 5, inside_perimeter_block := false }
        ( "G1 Z2.000 X1 Y1 E1\n".data) =
      Option.some ({ current_layer := 10, current_z := dbl 2 1,
                     perimeter_type := PerimeterType.internal,
                     perimeter_block_count := 0, inside_perimeter_block := false },
        [ "G1 Z2.000 X1 Y1 E1\n".data]) ∧
    (0 : ℕ) ≠ 5 + 1 := by
  constructor
  · decide
  · decide

/-- C1 (amended): whenever the block-opening branch runs — the line is not
a layer-change line, the perimeter context after the line's own marker
update is internal, the in-block flag is clear, and the line matches the
motion pattern — and processing succeeds, the block counter is incremented
and the first output line is the synthetic Z line at 3 decimal places: for
an odd new counter it carries `current_z + (nominal_layer_height * 0.5) *
settings.layer_height` with `settings = calculate_layer_settings
current_layer`, for an even one the unmodified `current_z`. -/
theorem c1_block_open (lh : Q) (tl : ℕ) (st : ScanState) (line : List Char)
    (st2 : ScanState) (out : List (List Char))
    (hpt : (markerUpdate line st).perimeter_type = PerimeterType.internal)
    (hib : (markerUpdate line st).inside_perimeter_block = false)
    (hlc : isLayerChange line = false)
    (hmm : motionMatch line = true)
    (h : processLine lh tl st line = Option.some (st2, out)) :
    st2.perimeter_block_count = st.perimeter_block_count + 1 ∧
    ∃ rest, out =
      (if (st.perimeter_block_count + 1) % 2 = 1 then
         shiftedZLine
           (fadd st.current_z
             (fmul (fmul lh qHalf)
               (calculate_layer_settings st.current_layer tl).layer_height))
           (st.perimeter_block_count + 1)
       else resetZLine st.current_z (st.perimeter_block_count + 1)) :: rest := by
  obtain ⟨hbc, hz, hl⟩ := markerUpdate_frame line st
  unfold processLine at h
  rw [if_neg (by simp [hlc]), if_pos ⟨hpt, hmm⟩, if_neg (by simp [hib])] at h
  have hins : insertedZ lh tl (markerUpdate line st) =
      (if (st.perimeter_block_count + 1) % 2 = 1 then
         shiftedZLine
           (fadd st.current_z
             (fmul (fmul lh qHalf)
               (calculate_layer_settings st.current_layer tl).layer_height))
           (st.perimeter_block_count + 1)
       else resetZLine st.current_z (st.perimeter_block_count + 1)) := by
    unfold insertedZ
    rw [hbc, hz, hl]
  split at h
  · simp only [Option.some.injEq, Prod.mk.injEq] at h
    obtain ⟨h1, h2⟩ := h
    refine ⟨by rw [← h1]; simp [openedState, hbc], [line], ?_⟩
    rw [← h2, hins]
  · split at h
    · exact absurd h (by simp)
    · next e _ =>
      simp only [Option.some.injEq, Prod.mk.injEq] at h
      obtain ⟨h1, h2⟩ := h
      refine ⟨by rw [← h1]; simp [openedState, hbc],
        [rewrittenE tl (markerUpdate line st) e line], ?_⟩
      rw [← h2, hins]

/-- C1 witness: the first block of a layer (odd) gets the shifted Z line. -/
theorem c1_witness :
    ({ current_layer := 0, current_z := qZero, perimeter_type := PerimeterType.internal,
       perimeter_block_count := 1, inside_perimeter_block := false } : ScanState).perimeter_block_count =
      0 + 1 ∧
    ∃ rest, ([ "G1 Z0.030 ; Shifted Z for block #1\n".data,
              "G1 X1 Y1 E1.00000 ; Adjusted E for layer settings, block #1\n".data] :
        List (List Char)) =
      (if (0 + 1) % 2 = 1 then
         shiftedZLine (fadd qZero (fmul (fmul lh02 qHalf) (calculate_layer_settings 0 0).layer_height))
           (0 + 1)
       else resetZLine qZero (0 + 1)) :: rest :=
  c1_block_open lh02 0
    { current_layer := 0, current_z := qZero, perimeter_type := PerimeterType.internal,
      perimeter_block_count := 0, inside_perimeter_block := false }
    ( "G1 X1 Y1 E1\n".data)
    { current_layer := 0, current_z := qZero, perimeter_type := PerimeterType.internal,
      perimeter_block_count := 1, inside_perimeter_block := false }
    [ "G1 Z0.030 ; Shifted Z for block #1\n".data,
      "G1 X1 Y1 E1.00000 ; Adjusted E for layer settings, block #1\n".data]
    (by decide) (by decide) (by decide) (by decide) (by decide)

/-- C2: when a block opens on a motion line whose E token parses, every E
token on the line is replaced by `old_e * (settings.line_width / 0.4)`
formatted to 5 decimal places, the line is stripped and an explanatory
comment is appended; in particular "E1.23456" on an odd layer (line width
0.5) becomes "E1.54320". -/
theorem c2_e_rescale :
    (∀ (lh : Q) (tl : ℕ) (st : ScanState) (line etok : List Char) (e : Q),
       (markerUpdate line st).perimeter_type = PerimeterType.internal →
       (markerUpdate line st).inside_perimeter_block = false →
       isLayerChange line = false →
       motionMatch line = true →
       searchTok 'E' line = Option.some etok →
       pyFloat etok = Option.some e →
       processLine lh tl st line =
         Option.some (openedState (markerUpdate line st),
           [insertedZ lh tl (markerUpdate line st),
            pyStrip (subAll 'E'
                ('E' :: formatFixed 5
                  (fmul e
                    (fdivD (calculate_layer_settings st.current_layer tl).line_width
                      assumedDefaultWidth)))
                line) ++
              adjustedComment (st.perimeter_block_count + 1)])) ∧
    process_gcode lh02
        [ "G1 Z0.200\n".data, ";TYPE:Inner wall\n".data, "G1 X10 Y10 E1.23456\n".data] =
      Option.some
        [ "G1 Z0.200\n".data, ";TYPE:Inner wall\n".data,
          "G1 Z0.215 ; Shifted Z for block #1\n".data,
          "G1 X10 Y10 E1.54320 ; Adjusted E for layer settings, block #1\n".data] := by
  constructor
  · intro lh tl st line etok e hpt hib hlc hmm he hp
    obtain ⟨hbc, hz, hl⟩ := markerUpdate_frame line st
    unfold processLine
    rw [if_neg (by simp [hlc]), if_pos ⟨hpt, hmm⟩, if_neg (by simp [hib])]
    simp only [he, hp, rewrittenE, hbc, hl]
  · decide

/-- C2 witness: the rescale at a concrete opened line on odd layer 1. -/
theorem c2_witness :
    processLine lh02 1
        { current_layer := 1, current_z := dbl 2 10, perimeter_type := PerimeterType.internal,
          perimeter_block_count := 0, inside_perimeter_block := false }
        ( "G1 X10 Y10 E1.23456\n".data) =
      Option.some (openedState
          { current_layer := 1, current_z := dbl 2 10, perimeter_type := PerimeterType.internal,
            perimeter_block_count := 0, inside_perimeter_block := false },
        [insertedZ lh02 1
            { current_layer := 1, current_z := dbl 2 10, perimeter_type := PerimeterType.internal,
              perimeter_block_count := 0, inside_perimeter_block := false },
         pyStrip (subAll 'E'
             ('E' :: formatFixed 5
               (fmul (dbl 123456 100000)
                 (fdivD (calculate_layer_settings 1 1).line_width assumedDefaultWidth)))
             ( "G1 X10 Y10 E1.23456\n".data)) ++
           adjustedComment (0 + 1)]) :=
  c2_e_rescale.1 lh02 1
    { current_layer := 1, current_z := dbl 2 10, perimeter_type := PerimeterType.internal,
      perimeter_block_count := 0, inside_perimeter_block := false }
    ( "G1 X10 Y10 E1.23456\n".data) ( "1.23456".data) (dbl 123456 100000)
    (by decide) (by decide) (by decide) (by decide) (by decide) (by decide)

/-- C6 counterexample: a line can be handled BOTH as a type marker and as a
motion line: "G1 X1 Y1 E1 ;TYPE:Inner wall" updates `perimeter_type` to
internal via the recognized marker and, in the same pass, opens block #1,
inserts the shifted Z line and rewrites its E value. -/
theorem c6_counterexample :
    processLine lh02 0 initState ( "G1 X1 Y1 E1 ;TYPE:Inner wall\n".data) =
      Option.some ({ current_layer := 0, current_z := qZero,
                     perimeter_type := PerimeterType.internal,
                     perimeter_block_count := 1, inside_perimeter_block := false },
        [ "G1 Z0.030 ; Shifted Z for block #1\n".data,
          "G1 X1 Y1 E1.00000 ;TYPE:Inner wall ; Adjusted E for layer settings, block #1\n".data]) ∧
    hasSubstr ( ";TYPE:Inner wall".data) ( "G1 X1 Y1 E1 ;TYPE:Inner wall\n".data) = true := by
  constructor
  · decide
  · decide

/-- C6 (amended): a `;TYPE:` marker line that is not itself a `G1` command
is never double-handled: it only runs the marker cascade, is appended
unmodified, and leaves the block counter, Z value and layer index alone. -/
theorem c6_marker_no_motion (lh : Q) (tl : ℕ) (st : ScanState) (line : List Char)
    (hmk : hasSubstr ( ";TYPE:".data) line = true)
    (hg1 : List.isPrefixOf ( "G1".data) line = false) :
    processLine lh tl st line = Option.some (markerUpdate line st, [line]) ∧
    (markerUpdate line st).perimeter_block_count = st.perimeter_block_count ∧
    (markerUpdate line st).current_z = st.current_z ∧
    (markerUpdate line st).current_layer = st.current_layer :=
  ⟨processLine_marker_only lh tl st line hg1, markerUpdate_frame line st⟩

/-- C6 witness: the pure comment line ";TYPE:Inner wall" at a concrete
state. -/
theorem c6_witness :
    processLine lh02 0 initState ( ";TYPE:Inner wall\n".data) =
      Option.some (markerUpdate ( ";TYPE:Inner wall\n".data) initState,
        [ ";TYPE:Inner wall\n".data]) ∧
    (markerUpdate ( ";TYPE:Inner wall\n".data) initState).perimeter_block_count =
      initState.perimeter_block_count ∧
    (markerUpdate ( ";TYPE:Inner wall\n".data) initState).current_z = initState.current_z ∧
    (markerUpdate ( ";TYPE:Inner wall\n".data) initState).current_layer =
      initState.current_layer :=
  c6_marker_no_motion lh02 0 initState ( ";TYPE:Inner wall\n".data) (by decide) (by decide)

/-- C5 counterexample: an input with zero layer-change lines whose output
differs from the input and whose scan state does change: a type marker sets
internal context and the following motion line is rewritten. -/
theorem c5_counterexample :
    countLayerLines [ ";TYPE:Inner wall\n".data, "G1 X1 Y1 E1\n".data] = 0 ∧
    process_gcode lh02 [ ";TYPE:Inner wall\n".data, "G1 X1 Y1 E1\n".data] ≠
      Option.some [ ";TYPE:Inner wall\n".data, "G1 X1 Y1 E1\n".data] ∧
    (runLines lh02 0 initState [ ";TYPE:Inner wall\n".data, "G1 X1 Y1 E1\n".data]).map
      (fun r => r.1) ≠ Option.some initState := by
  refine ⟨by decide, by decide, by decide⟩

/-- C5 (amended): for an input with zero layer-change lines AND zero
`;TYPE:` marker lines, the total-layers count is 0, the scan state never
changes, and the output equals the input. -/
theorem c5_no_layer_lines (lh : Q) (lines : List (List Char))
    (h : ∀ l ∈ lines, isLayerChange l = false ∧ hasSubstr ( ";TYPE:".data) l = false) :
    countLayerLines lines = 0 ∧
    runLines lh (countLayerLines lines) initState lines = Option.some (initState, lines) ∧
    process_gcode lh lines = Option.some lines := by
  have hz := countLayerLines_zero lines (fun l hl => (h l hl).1)
  have hr := runLines_inert lh (countLayerLines lines) initState (by decide) lines h
  refine ⟨hz, hr, ?_⟩
  unfold process_gcode
  rw [hr]
  rfl

/-- C5 witness: a two-line input with no layer changes and no markers is
returned verbatim. -/
theorem c5_witness :
    countLayerLines [ "hello world\n".data, "G1 X1 Y1 E1\n".data] = 0 ∧
    runLines lh02 (countLayerLines [ "hello world\n".data, "G1 X1 Y1 E1\n".data]) initState
        [ "hello world\n".data, "G1 X1 Y1 E1\n".data] =
      Option.some (initState, [ "hello world\n".data, "G1 X1 Y1 E1\n".data]) ∧
    process_gcode lh02 [ "hello world\n".data, "G1 X1 Y1 E1\n".data] =
      Option.some [ "hello world\n".data, "G1 X1 Y1 E1\n".data] :=
  c5_no_layer_lines lh02 [ "hello world\n".data, "G1 X1 Y1 E1\n".data] (by decide)

/-- C9: the rewriter is not idempotent: on a concrete input, running it on
its own output succeeds and produces a different line list (the shift and
the E rescale are applied again). -/
theorem c9_not_idempotent :
    ((process_gcode lh02 [ ";TYPE:Inner wall\n".data, "G1 X1 Y1 E1\n".data]).bind
        (fun o => process_gcode lh02 o)).isSome = true ∧
    (process_gcode lh02 [ ";TYPE:Inner wall\n".data, "G1 X1 Y1 E1\n".data]).bind
        (fun o => process_gcode lh02 o) ≠
      process_gcode lh02 [ ";TYPE:Inner wall\n".data, "G1 X1 Y1 E1\n".data] := by
  constructor
  · decide
  · decide

/-- C10: a layer-change line leaves `perimeter_type` and the in-block flag
unchanged and outputs only the original line, so internal context persists
across a layer boundary; concretely, a motion line after a new layer's Z
move and before any new marker still opens a block and is rewritten. -/
theorem c10_layer_frame :
    (∀ (lh : Q) (tl : ℕ) (st : ScanState) (line : List Char) (st2 : ScanState)
        (out : List (List Char)),
       isLayerChange line = true →
       processLine lh tl st line = Option.some (st2, out) →
       st2.perimeter_type = st.perimeter_type ∧
       st2.inside_perimeter_block = st.inside_perimeter_block ∧ out = [line]) ∧
    process_gcode lh02
        [ ";TYPE:Inner wall\n".data, "G1 Z0.400\n".data, "G1 X1 Y1 E1\n".data] =
      Option.some
        [ ";TYPE:Inner wall\n".data, "G1 Z0.400\n".data,
          "G1 Z0.430 ; Shifted Z for block #1\n".data,
          "G1 X1 Y1 E1.00000 ; Adjusted E for layer settings, block #1\n".data] := by
  constructor
  · intro lh tl st line st2 out hlc h
    rw [processLine_layer_split lh tl st line hlc] at h
    split at h
    · simp only [Option.some.injEq, Prod.mk.injEq] at h
      obtain ⟨h1, h2⟩ := h
      rw [← h1]
      exact ⟨rfl, rfl, h2.symm⟩
    · split at h
      · exact absurd h (by simp)
      · split at h
        · exact absurd h (by simp)
        · simp only [Option.some.injEq, Prod.mk.injEq] at h
          obtain ⟨h1, h2⟩ := h
          rw [← h1]
          exact ⟨rfl, rfl, h2.symm⟩
  · decide

/-- C10 witness: the frame property at the concrete layer line "G1 Z2.400"
from an internal-context state. -/
theorem c10_witness :
    ({ current_layer := 11, current_z := dbl 24 10,
       perimeter_type := PerimeterType.internal,
       perimeter_block_count := 0, inside_perimeter_block := false } : ScanState).perimeter_type =
      ({ current_layer := 0, current_z := qZero, perimeter_type := PerimeterType.internal,
         perimeter_block_count := 5, inside_perimeter_block := false } : ScanState).perimeter_type ∧
    ({ current_layer := 11, current_z := dbl 24 10,
       perimeter_type := PerimeterType.internal,
       perimeter_block_count := 0, inside_perimeter_block := false } : ScanState).inside_perimeter_block =
      ({ current_layer := 0, current_z := qZero, perimeter_type := PerimeterType.internal,
         perimeter_block_count := 5, inside_perimeter_block := false } : ScanState).inside_perimeter_block ∧
    ([ "G1 Z2.400\n".data] : List (List Char)) = [ "G1 Z2.400\n".data] :=
  c10_layer_frame.1 lh02 0
    { current_layer := 0, current_z := qZero, perimeter_type := PerimeterType.internal,
      perimeter_block_count := 5, inside_perimeter_block := false }
    ( "G1 Z2.400\n".data)
    { current_layer := 11, current_z := dbl 24 10, perimeter_type := PerimeterType.internal,
      perimeter_block_count := 0, inside_perimeter_block := false }
    [ "G1 Z2.400\n".data]
    (by decide) (by decide)
